import Mathlib

/-!
Verification of the connection-routing core of mysql-router against its
specification.  The definitions below are a shallow embedding of the C++
sources (src/routing.cc and the routing plugin); functions whose
implementation is absent from the provided sources are modelled from the
specification and marked as such in their doc comments.
-/

namespace routing

/-! ## AccessMode (src/routing.cc, kAccessModeNames / get_access_mode /
get_access_mode_name) -/

/-- The access modes of a route.  In the source this is an enum with
kUndefined = 0, kReadWrite = 1, kReadOnly = 2. -/
inductive AccessMode where
  | kUndefined
  | kReadWrite
  | kReadOnly
  deriving DecidableEq, Repr

/-- Numeric value of an AccessMode, as in the C++ enum. -/
def AccessMode.toNat : AccessMode → Nat
  | .kUndefined => 0
  | .kReadWrite => 1
  | .kReadOnly => 2

/-- The C++ static_cast from an index into the enum (only indices produced
by the get_access_mode loop occur). -/
def AccessMode.fromIdx : Nat → AccessMode
  | 1 => .kReadWrite
  | 2 => .kReadOnly
  | _ => .kUndefined

/-- The name table kAccessModeNames: entry 0 is a null pointer, modelled
as none. -/
def kAccessModeNames : List (Option String) :=
  [none, some "read-write", some "read-only"]

/-- sizeof(kAccessModeNames)/sizeof(*kAccessModeNames). -/
def kAccessModeCount : Nat := kAccessModeNames.length

/-- get_access_mode: loops i = 1 .. kAccessModeCount-1 and returns the
first i whose table entry compares equal to the value, else kUndefined. -/
def get_access_mode (value : String) : AccessMode :=
  match ((List.range kAccessModeCount).drop 1).find?
      (fun i => decide (kAccessModeNames.getD i none = some value)) with
  | some i => AccessMode.fromIdx i
  | none => AccessMode.kUndefined

/-- get_access_mode_name: indexes the name table with the numeric value of
the access mode.  Entry 0 is a null pointer; constructing std::string from
it is undefined behaviour, modelled by the none result. -/
def get_access_mode_name (access_mode : AccessMode) : Option String :=
  kAccessModeNames.getD (AccessMode.toNat access_mode) none

/-! ## set_socket_blocking (src/routing.cc)

The POSIX branch reads the file-status flags with fcntl(F_GETFL), clears or
sets O_NONBLOCK, and writes them back with F_SETFL.  We model the flag word
as a natural number; the function below is the transformation the call
applies to it.  O_NONBLOCK is 0o4000 = 2^11 on Linux. -/

/-- The Linux value of the O_NONBLOCK file-status flag (bit 11). -/
def O_NONBLOCK : Nat := 2048

/-- The complement of O_NONBLOCK in the 32-bit int word holding the
flags. -/
def NOT_O_NONBLOCK : Nat := 2 ^ 32 - 1 - O_NONBLOCK

/-- Effect of set_socket_blocking on the file-status flag word: flags
&= ~O_NONBLOCK when blocking, flags |= O_NONBLOCK otherwise. -/
def set_socket_blocking (blocking : Bool) (flags : Nat) : Nat :=
  if blocking then flags &&& NOT_O_NONBLOCK else flags ||| O_NONBLOCK

/-! ## SocketOperations::get_mysql_socket (src/routing.cc)

The outbound connect procedure.  The operating system's responses
(getaddrinfo, socket, connect, poll, getsockopt SO_ERROR, setsockopt
TCP_NODELAY) are inputs of the model; the procedure's control flow, its
errno bookkeeping and the timeout_expired flag are translated line by line
from the source.  The result is the returned int together with the final
errno value. -/

/-- Linux errno values used by the procedure. -/
def EINVAL : Nat := 22
/-- errno: connection timed out. -/
def ETIMEDOUT : Nat := 110
/-- errno: connection refused. -/
def ECONNREFUSED : Nat := 111
/-- errno: operation now in progress. -/
def EINPROGRESS : Nat := 115

/-- Outcome of connect_non_blocking_status as dictated by the OS:
getsockopt itself fails with errno e, or it reports SO_ERROR = code
(0 = connected). -/
inductive StatusBehavior where
  | sockoptFail (e : Nat)
  | soError (code : Nat)
  deriving DecidableEq, Repr

/-- Outcome of the poll inside connect_non_blocking_wait as dictated by
the OS: poll returns 0 (timeout), poll fails with errno e, the socket is
reported but not writable, or it is writable (in which case
connect_non_blocking_status runs next with behavior s). -/
inductive WaitBehavior where
  | pollTimeout
  | pollError (e : Nat)
  | notWritable
  | writable (s : StatusBehavior)
  deriving DecidableEq, Repr

/-- Outcome of the ::connect call on one candidate: immediate success, or
failure with errno e (when e = EINPROGRESS the wait behavior w follows). -/
inductive ConnBehavior where
  | connOk
  | connFail (e : Nat) (w : WaitBehavior)
  deriving DecidableEq, Repr

/-- One getaddrinfo candidate: either ::socket fails with errno e, or it
yields descriptor fd and the connect attempt behaves as c. -/
inductive CandidateBehavior where
  | sockFail (e : Nat)
  | attempt (fd : Nat) (c : ConnBehavior)
  deriving DecidableEq, Repr

/-- The environment of one get_mysql_socket call: whether getaddrinfo
succeeds, the errno value on entry, the resolved candidates, and whether
the final setsockopt TCP_NODELAY fails (some e = fails with errno e). -/
structure ConnectEnv where
  gaiOk : Bool
  errno0 : Nat
  cands : List CandidateBehavior
  nodelay : Option Nat
  deriving DecidableEq, Repr

/-- connect_non_blocking_wait: poll for writability.  Returns the int
result and the errno value afterwards (poll returning 0 sets ETIMEDOUT,
a non-writable socket sets EINVAL, a poll error leaves poll's errno). -/
def connect_non_blocking_wait (errno : Nat) : WaitBehavior → Int × Nat
  | .pollTimeout => (-1, ETIMEDOUT)
  | .pollError e => (-1, e)
  | .notWritable => (-1, EINVAL)
  | .writable _ => (0, errno)

/-- connect_non_blocking_status: read SO_ERROR.  Returns the int result
and the errno value afterwards. -/
def connect_non_blocking_status (errno : Nat) : StatusBehavior → Int × Nat
  | .sockoptFail e => (-1, e)
  | .soError code => (if code = 0 then 0 else -1, errno)

/-- The candidate loop of get_mysql_socket.  State: the timeout_expired
flag and errno.  Returns (some fd) when a candidate connected, none when
all candidates are exhausted, together with the final flag and errno.
Mirrors the source: a failed ::socket only logs and moves on; a connect
failure other than EINPROGRESS takes the default switch branch; an
EINPROGRESS connect polls, and only a failure of that poll reassigns
timeout_expired (to whether errno is then ETIMEDOUT). -/
def connectLoop : List CandidateBehavior → Bool → Nat → Option Nat × Bool × Nat
  | [], te, er => (none, te, er)
  | .sockFail e :: rest, te, _ => connectLoop rest te e
  | .attempt fd c :: rest, te, er =>
    match c with
    | .connOk => (some fd, te, er)
    | .connFail e w =>
      if e = EINPROGRESS then
        match w with
        | .writable s =>
          match connect_non_blocking_status e s with
          | (0, er2) => (some fd, te, er2)
          | (_, er2) => connectLoop rest te er2
        | _ =>
          match connect_non_blocking_wait e w with
          | (_, er1) => connectLoop rest (decide (er1 = ETIMEDOUT)) er1
      else connectLoop rest te e

/-- get_mysql_socket: the returned int (fd, -1 = Refused, -2 = Timeout)
together with the final errno.  Source lines 162-258 of routing.cc. -/
def get_mysql_socket (env : ConnectEnv) : Int × Nat :=
  if !env.gaiOk then (-1, env.errno0)
  else
    match connectLoop env.cands false env.errno0 with
    | (none, te, er) => (if te then -2 else -1, er)
    | (some fd, _, er) =>
      match env.nodelay with
      | some e => (-1, e)
      | none => (Int.ofNat fd, er)

/-- Whether one candidate attempt ends in a connected socket. -/
def candSucceeds : CandidateBehavior → Bool
  | .sockFail _ => false
  | .attempt _ .connOk => true
  | .attempt _ (.connFail e w) =>
    decide (e = EINPROGRESS) &&
      (match w with
       | .writable (.soError code) => decide (code = 0)
       | _ => false)

/-- The timeout_expired flag after all candidates have been tried:
reassigned exactly by the failures that take the non-blocking wait path,
to whether errno is ETIMEDOUT at that point. -/
def lastWaitTimeout : List CandidateBehavior → Bool → Bool
  | [], acc => acc
  | c :: rest, acc =>
    lastWaitTimeout rest
      (match c with
       | .attempt _ (.connFail e w) =>
         if e = EINPROGRESS then
           match w with
           | .writable _ => acc
           | _ => decide ((connect_non_blocking_wait e w).2 = ETIMEDOUT)
         else acc
       | _ => acc)

end routing

namespace routing

/-! ## ProtocolFramer byte pump -/

/-- The scripted I/O environment of one copy_packets call: the result of
the single read from from_fd, and the successive results of the write
calls to to_fd. -/
structure IOScript where
  readResult : Int
  writeResults : List Int
  deriving DecidableEq, Repr

/-- Modelled from the spec: the partial-write loop of
ClassicProtocol::copy_packets (the implementation file is absent from the
sources; only its tests are present).  Emits the pending bytes through
successive write calls: a write returning -1 fails, a write returning 0
is retried, any other return removes that many bytes from the pending
count.  Returns none when the script provides too few write results
(model artifact), otherwise (true, moved) on completion or (false,
moved) on a write error, moved being the bytes relayed so far. -/
def writeLoop : Nat → List Int → Nat → Option (Bool × Nat)
  | 0, _, moved => some (true, moved)
  | _ + 1, [], _ => none
  | pending + 1, w :: rest, moved =>
    if w < 0 then some (false, moved)
    else writeLoop (pending + 1 - w.toNat) rest (moved + min w.toNat (pending + 1))

/-- Modelled from the spec: ClassicProtocol::copy_packets byte movement
and return code (the implementation file is absent from the sources).
One bounded read; a read error or EOF (result 0) fails with -1; otherwise
the write loop runs until all read bytes are emitted, a write error fails
with -1; bytes_moved_out reports the bytes relayed.  Sequence-number
bookkeeping, which the spec specifies separately and no claim touches, is
omitted.  Result: none for an exhausted script, otherwise (return code,
bytes_moved_out). -/
def copy_packets (s : IOScript) : Option (Int × Nat) :=
  if s.readResult ≤ 0 then some (-1, 0)
  else
    match writeLoop s.readResult.toNat s.writeResults 0 with
    | none => none
    | some (true, moved) => some (0, moved)
    | some (false, moved) => some (-1, moved)

/-! ## Thread naming -/

/-- The plugin name every route name must begin with. -/
def kRoutingChars : List Char := "routing".toList

/-- The separator whose first occurrence is stripped from a route name. -/
def kDefaultChars : List Char := "_default_".toList

/-- Everything after the first occurrence of the (nonempty) pattern pat,
or none when pat does not occur. -/
def afterFirstChars (pat : List Char) : List Char → Option (List Char)
  | [] => none
  | c :: rest =>
    if pat.isPrefixOf (c :: rest) then some ((c :: rest).drop pat.length)
    else afterFirstChars pat rest

/-- Modelled from the spec: MySQLRouting::make_thread_name (the
implementation file is absent from the sources; only its tests are
present).  Result is key ++ suffix where key = pre ++ ":"; a route name
not beginning with "routing" yields key ++ "parse err"; otherwise the
suffix is everything after the first "_default_" when that substring is
present, else the name with "routing" and an immediately following ":"
stripped; the routing-branch result is clipped to 15 characters
(substr(0, 15)). -/
def make_thread_name (config_name : String) (pre : String) : String :=
  let cn := config_name.toList
  let key := pre.toList ++ [':']
  if ¬ kRoutingChars.isPrefixOf cn then (key ++ "parse err".toList).asString
  else
    (List.take 15 (key ++
      (match afterFirstChars kDefaultChars cn with
       | some rest => rest
       | none =>
         match cn.drop kRoutingChars.length with
         | ':' :: rs => rs
         | r => r))).asString

/-! ## Destination configuration -/

/-- A parsed URI as handed to set_destinations_from_uri (URI parsing
itself is outside the core under specification). -/
structure URI where
  scheme : String
  host : String
  path : List String
  query : List (String × String)
  deriving DecidableEq, Repr

/-- Look up a query key. -/
def queryLookup (q : List (String × String)) (key : String) : Option String :=
  match q.find? (fun kv => kv.1 = key) with
  | some kv => some kv.2
  | none => none

/-- The roles a metadata-cache destination may carry. -/
def kValidRoles : List String := ["PRIMARY", "SECONDARY", "PRIMARY_AND_SECONDARY"]

/-- Modelled from the spec: MySQLRouting::set_destinations_from_uri (the
implementation file is absent from the sources; only its tests are
present).  Accepts only the metadata-cache scheme, with the exact error
message quoting the offending scheme; requires a role query parameter,
with the exact error message; the role must be one of the three known
roles. -/
def set_destinations_from_uri (uri : URI) : Except String Unit :=
  if uri.scheme ≠ "metadata-cache" then
    .error ("Invalid URI scheme; expecting: 'metadata-cache' is: '" ++ uri.scheme ++ "'")
  else
    match queryLookup uri.query "role" with
    | none => .error "Missing 'role' in routing destination specification"
    | some role =>
      if kValidRoles.contains role then .ok ()
      else .error "Invalid role in routing destination specification"

/-- The two wire protocols. -/
inductive ProtocolType where
  | kClassicProtocol
  | kXProtocol
  deriving DecidableEq, Repr

/-- The default port of each protocol. -/
def default_port : ProtocolType → Nat
  | .kClassicProtocol => 3306
  | .kXProtocol => 33060

/-- A host:port pair; port 0 at parse time means the protocol default is
to be filled in. -/
structure TCPAddress where
  addr : String
  port : Nat
  deriving DecidableEq, Repr

/-- Split a character list at every occurrence of the separator; an
empty input yields one empty group, matching std::getline-style CSV
splitting. -/
def splitOnChar (sep : Char) : List Char → List (List Char)
  | [] => [[]]
  | c :: rest =>
    if c = sep then [] :: splitOnChar sep rest
    else
      match splitOnChar sep rest with
      | [] => [[c]]
      | g :: gs => (c :: g) :: gs

/-- Decimal reading of a digit string: none when empty or containing a
non-digit. -/
def charsToNat? (cs : List Char) : Option Nat :=
  if !cs.isEmpty && cs.all Char.isDigit then
    some (cs.foldl (fun n c => n * 10 + (c.toNat - 48)) 0)
  else none

/-- Modelled from the spec: host validation of the Address parser.  A
host made only of digits and dots must be a well-formed IPv4 literal:
exactly 4 numeric octets, each at most 255 ("127.0.0.1.2" must fail). -/
def valid_host (host : List Char) : Bool :=
  !host.isEmpty &&
    (if host.all (fun c => c.isDigit || c = '.') then
      let parts := splitOnChar '.' host
      decide (parts.length = 4) &&
        parts.all (fun p => match charsToNat? p with
          | some n => decide (n ≤ 255)
          | none => false)
    else true)

/-- Modelled from the spec: port parsing — digits only, at most 65535. -/
def parse_port (p : List Char) : Option Nat :=
  match charsToNat? p with
  | some n => if n ≤ 65535 then some n else none
  | none => none

/-- Modelled from the spec: the Address parser for "host" and
"host:port" (the bracketed IPv6 form, which no claim touches, is
omitted).  Rejects an empty host, an invalid host, a bad port and
trailing junk; a missing port parses as 0. -/
def parse_address (s : String) : Option TCPAddress :=
  match splitOnChar ':' s.toList with
  | [host] => if valid_host host then some ⟨host.asString, 0⟩ else none
  | [host, p] =>
    if valid_host host then
      match parse_port p with
      | some n => some ⟨host.asString, n⟩
      | none => none
    else none
  | _ => none

/-- Fill a 0 port with the protocol default. -/
def fill_default_port (proto : ProtocolType) (a : TCPAddress) : TCPAddress :=
  if a.port = 0 then ⟨a.addr, default_port proto⟩ else a

/-- Modelled from the spec: MySQLRouting::set_destinations_from_csv (the
implementation file is absent from the sources; only its tests are
present).  Parses the comma-separated address list and fails when the
list is empty, when any element fails to parse, or when any element —
after the protocol default port fills a missing port — equals the route's
bind address (self loop). -/
def set_destinations_from_csv (csv : String) (proto : ProtocolType)
    (bind : TCPAddress) : Except String Unit :=
  match (splitOnChar ',' csv.toList).mapM (fun cs => parse_address cs.asString) with
  | none => .error "invalid destination address"
  | some addrs =>
    let dests := addrs.map (fill_default_port proto)
    if dests.isEmpty then .error "no destinations specified"
    else if dests.any (fun d => d = bind) then
      .error "destination loops back to the route binding"
    else .ok ()

/-! ## Route active-connection accounting -/

/-- The admission-relevant events of one Route run, serialized: a client
is accepted (admitted = false when the peer is blocked or the route is at
max_connections, in which case only a rejection is sent), or one
client-backend pair terminates. -/
inductive RouteEvent where
  | accept (admitted : Bool)
  | pairDone
  deriving DecidableEq, Repr

/-- Modelled from the spec: the effect of one event on the Route's
active-connection counter (the MySQLRouting implementation is absent from
the sources; only its tests are present; the concurrent accept loop and
pair workers are serialized into an event sequence).  An admitted accept
increments the counter exactly once, a rejected accept leaves it, a pair
termination decrements it exactly once. -/
def routeStep (active : Nat) : RouteEvent → Nat
  | .accept true => active + 1
  | .accept false => active
  | .pairDone => active - 1

/-- The active-connection counter after a sequence of events, starting
from an idle route. -/
def runRoute (evs : List RouteEvent) : Nat := evs.foldl routeStep 0

end routing

/-! ## Helper lemmas -/

namespace routing

/-- get_access_mode on any string other than the two table entries. -/
lemma get_access_mode_eq_kUndefined {s : String}
    (h1 : s ≠ "read-write") (h2 : s ≠ "read-only") :
    get_access_mode s = AccessMode.kUndefined := by
  have hfind : ((List.range kAccessModeCount).drop 1).find?
      (fun i => decide (kAccessModeNames.getD i none = some s)) = none := by
    apply List.find?_eq_none.mpr
    intro i hi
    have hmem : i = 1 ∨ i = 2 := by
      have hl : (List.range kAccessModeCount).drop 1 = [1, 2] := rfl
      rw [hl] at hi
      simpa using hi
    rcases hmem with h | h <;> subst h <;> simp [kAccessModeNames]
    · exact fun hh => h1 hh.symm
    · exact fun hh => h2 hh.symm
  simp only [get_access_mode, hfind]

/-- NOT_O_NONBLOCK as a xor, for bit computations. -/
lemma notONonblockEqXor : NOT_O_NONBLOCK = (2 ^ 32 - 1) ^^^ 2 ^ 11 := by decide

/-- Bits of the complement mask. -/
lemma testBit_notONonblock (i : Nat) :
    Nat.testBit NOT_O_NONBLOCK i = (decide (i < 32) && !(decide (11 = i))) := by
  rw [notONonblockEqXor, Nat.testBit_xor, Nat.testBit_two_pow_sub_one,
    Nat.testBit_two_pow]
  by_cases hlt : i < 32 <;> by_cases heq : 11 = i <;> (simp [hlt, heq]; try omega)

/-- Bits of the O_NONBLOCK mask itself. -/
lemma testBit_oNonblock (i : Nat) : Nat.testBit O_NONBLOCK i = decide (11 = i) := by
  rw [show O_NONBLOCK = 2 ^ 11 from rfl, Nat.testBit_two_pow]

/-- Frame: set_socket_blocking changes no in-word bit other than bit 11. -/
lemma set_socket_blocking_frame (blocking : Bool) (flags i : Nat)
    (hlt : i < 32) (hne : i ≠ 11) :
    Nat.testBit (set_socket_blocking blocking flags) i = Nat.testBit flags i := by
  cases blocking with
  | false =>
    simp [set_socket_blocking, Nat.testBit_lor, testBit_oNonblock, Ne.symm hne]
  | true =>
    simp [set_socket_blocking, Nat.testBit_land, testBit_notONonblock, hlt,
      Ne.symm hne]

/-- set_socket_blocking false sets bit 11. -/
lemma set_socket_blocking_false_bit (flags : Nat) :
    Nat.testBit (set_socket_blocking false flags) 11 = true := by
  simp [set_socket_blocking, Nat.testBit_lor,
    show Nat.testBit O_NONBLOCK 11 = true from by decide]

/-- set_socket_blocking true clears bit 11. -/
lemma set_socket_blocking_true_bit (flags : Nat) :
    Nat.testBit (set_socket_blocking true flags) 11 = false := by
  simp [set_socket_blocking, Nat.testBit_land,
    show Nat.testBit NOT_O_NONBLOCK 11 = false from by decide]

/-- Bits at or above the word size vanish after masking. -/
lemma set_socket_blocking_true_high (flags i : Nat) (hge : 32 ≤ i) :
    Nat.testBit (set_socket_blocking true flags) i = false := by
  have hm : Nat.testBit NOT_O_NONBLOCK i = false := by
    rw [testBit_notONonblock]
    simp [Nat.not_lt.mpr hge]
  simp [set_socket_blocking, Nat.testBit_land, hm]

end routing

/-! ## The claims -/

open routing

/-- C9: AccessMode parsing and naming round-trip:
get_access_mode_name (get_access_mode s) = s for s in {"read-write",
"read-only"}, with get_access_mode "read-write" = kReadWrite of numeric
value 1 and get_access_mode "read-only" = kReadOnly of numeric value 2. -/
theorem claim_C9_access_mode_round_trip :
    get_access_mode "read-write" = AccessMode.kReadWrite ∧
    get_access_mode "read-only" = AccessMode.kReadOnly ∧
    AccessMode.toNat AccessMode.kReadWrite = 1 ∧
    AccessMode.toNat AccessMode.kReadOnly = 2 ∧
    get_access_mode_name (get_access_mode "read-write") = some "read-write" ∧
    get_access_mode_name (get_access_mode "read-only") = some "read-only" := by
  refine ⟨by decide, by decide, rfl, rfl, by decide, by decide⟩

/-- C10: get_access_mode is total and returns kUndefined on every string
other than "read-write" and "read-only"; get_access_mode_name applied to
kUndefined selects the null entry of the name table (modelled as none),
and yields a proper name exactly on kReadWrite and kReadOnly. -/
theorem claim_C10_access_mode_name_safety :
    (∀ s : String, s ≠ "read-write" → s ≠ "read-only" →
      get_access_mode s = AccessMode.kUndefined) ∧
    get_access_mode_name AccessMode.kUndefined = none ∧
    (∀ m : AccessMode, m = AccessMode.kReadWrite ∨ m = AccessMode.kReadOnly →
      (get_access_mode_name m).isSome = true) := by
  refine ⟨fun s h1 h2 => get_access_mode_eq_kUndefined h1 h2, rfl, ?_⟩
  rintro m (rfl | rfl) <;> rfl

/-- C10 witness: the theorem applied at the concrete string "foo" and the
concrete mode kReadWrite. -/
theorem claim_C10_witness :
    get_access_mode "foo" = AccessMode.kUndefined ∧
    (get_access_mode_name AccessMode.kReadWrite).isSome = true :=
  ⟨claim_C10_access_mode_name_safety.1 "foo" (by decide) (by decide),
   claim_C10_access_mode_name_safety.2.2 AccessMode.kReadWrite (Or.inl rfl)⟩

/-- C8 counterexample: a socket whose file-status flags already contain
O_NONBLOCK (flag word 2048) does not get its original flags back from
set_socket_blocking(fd, false) followed by set_socket_blocking(fd, true):
the pair leaves the flag word at 0, not 2048. -/
theorem claim_C8_counterexample :
    ¬ set_socket_blocking true (set_socket_blocking false 2048) = 2048 := by
  decide

/-- C8 (amended): set_socket_blocking changes only the O_NONBLOCK bit
(bit 11) of the 32-bit file-status flag word — setting it when blocking
is false, clearing it when blocking is true, every other in-word flag
unchanged; hence the pair set_socket_blocking(fd, false);
set_socket_blocking(fd, true) restores the original flags whenever
O_NONBLOCK was initially clear (in general it restores every flag other
than O_NONBLOCK). -/
theorem claim_C8_blocking_toggle :
    (∀ (blocking : Bool) (flags i : Nat), i < 32 → i ≠ 11 →
      Nat.testBit (set_socket_blocking blocking flags) i = Nat.testBit flags i) ∧
    (∀ flags : Nat, Nat.testBit (set_socket_blocking false flags) 11 = true) ∧
    (∀ flags : Nat, Nat.testBit (set_socket_blocking true flags) 11 = false) ∧
    (∀ flags : Nat, flags < 2 ^ 32 → Nat.testBit flags 11 = false →
      set_socket_blocking true (set_socket_blocking false flags) = flags) := by
  refine ⟨set_socket_blocking_frame, set_socket_blocking_false_bit,
    set_socket_blocking_true_bit, ?_⟩
  intro flags hlt h11
  apply Nat.eq_of_testBit_eq
  intro i
  by_cases hi : i < 32
  · by_cases hne : i = 11
    · subst hne
      rw [set_socket_blocking_true_bit, h11]
    · rw [set_socket_blocking_frame true _ i hi hne,
        set_socket_blocking_frame false _ i hi hne]
  · have hge : 32 ≤ i := Nat.le_of_not_lt hi
    rw [set_socket_blocking_true_high _ i hge]
    have : flags < 2 ^ i :=
      lt_of_lt_of_le hlt (Nat.pow_le_pow_right (by decide) hge)
    exact (Nat.testBit_eq_false_of_lt this).symm

/-- C8 witness: the amended theorem applied at the flag word 5
(O_RDONLY-like bits, O_NONBLOCK clear) and at bit 2 of flag word 2052. -/
theorem claim_C8_witness :
    Nat.testBit (set_socket_blocking true 2052) 2 = Nat.testBit 2052 2 ∧
    set_socket_blocking true (set_socket_blocking false 5) = 5 :=
  ⟨claim_C8_blocking_toggle.1 true 2052 2 (by decide) (by decide),
   claim_C8_blocking_toggle.2.2.2 5 (by decide) (by decide)⟩

/-- A successful write loop relays exactly the pending bytes on top of
those already moved. -/
lemma writeLoop_ok_moved (ws : List Int) :
    ∀ (pending moved m : Nat), writeLoop pending ws moved = some (true, m) →
      m = moved + pending := by
  induction ws with
  | nil =>
    intro pending moved m h
    cases pending with
    | zero => simp [writeLoop] at h; omega
    | succ n => simp [writeLoop] at h
  | cons w rest ih =>
    intro pending moved m h
    cases pending with
    | zero => simp [writeLoop] at h; omega
    | succ n =>
      rw [writeLoop] at h
      by_cases hw : w < 0
      · simp [hw] at h
      · simp only [hw, if_false] at h
        have := ih (n + 1 - w.toNat) (moved + min w.toNat (n + 1)) m h
        omega

/-- C2: a copy_packets call that returns 0 reports exactly the bytes of
its single read, summed over all write retries; in particular a read of
200 bytes followed by writes returning 100, 0 and 100 — the 0-return
write retried, not treated as an error — returns 0 and reports 200. -/
theorem claim_C2_copy_packets_write_retries :
    (∀ (s : IOScript) (moved : Nat), copy_packets s = some (0, moved) →
      moved = s.readResult.toNat) ∧
    copy_packets ⟨200, [100, 0, 100]⟩ = some (0, 200) := by
  constructor
  · intro s moved h
    unfold copy_packets at h
    by_cases hr : s.readResult ≤ 0
    · simp [hr] at h
    · simp only [hr, if_false] at h
      rcases hW : writeLoop s.readResult.toNat s.writeResults 0 with _ | ⟨b, m⟩ <;>
        rw [hW] at h
      · simp at h
      · cases b
        · simp at h
        · simp at h
          have := writeLoop_ok_moved s.writeResults s.readResult.toNat 0 m hW
          omega
  · decide

/-- C2 witness: the general clause applied to the scripted call of the
CopyPacketsMultipleWrites scenario. -/
theorem claim_C2_witness :
    (200 : Nat) = (IOScript.mk 200 [100, 0, 100]).readResult.toNat :=
  claim_C2_copy_packets_write_retries.1 ⟨200, [100, 0, 100]⟩ 200 (by decide)

/-- C3: copy_packets returns -1 when the read fails or reports EOF
(result 0), and when a write returns -1; in particular read 200 then
write -1 returns -1. -/
theorem claim_C3_copy_packets_errors :
    (∀ s : IOScript, s.readResult ≤ 0 → copy_packets s = some (-1, 0)) ∧
    (∀ (s : IOScript) (m : Nat), 0 < s.readResult →
      writeLoop s.readResult.toNat s.writeResults 0 = some (false, m) →
      copy_packets s = some (-1, m)) ∧
    copy_packets ⟨200, [-1]⟩ = some (-1, 0) := by
  refine ⟨?_, ?_, by decide⟩
  · intro s h
    simp [copy_packets, h]
  · intro s m hr hW
    simp [copy_packets, not_le.mpr hr, hW]

/-- C3 witness: the read-EOF clause at a scripted EOF and the write-error
clause at the CopyPacketsWriteError scenario. -/
theorem claim_C3_witness :
    copy_packets ⟨0, []⟩ = some (-1, 0) ∧ copy_packets ⟨200, [-1]⟩ = some (-1, 0) :=
  ⟨claim_C3_copy_packets_errors.1 ⟨0, []⟩ (by decide),
   claim_C3_copy_packets_errors.2.1 ⟨200, [-1]⟩ 0 (by decide) (by decide)⟩

/-- C4: make_thread_name is a pure function of its two inputs: a route
name not beginning with "routing" yields "<pre>:parse err"; a routing
name is stripped through "_default_" when present, else through
"routing:", and the result is clipped to 15 characters; the four quoted
evaluations hold. -/
theorem claim_C4_make_thread_name :
    (∀ (config_name pre : String),
      kRoutingChars.isPrefixOf config_name.toList = false →
      make_thread_name config_name pre = pre ++ ":parse err") ∧
    (∀ (config_name pre : String),
      kRoutingChars.isPrefixOf config_name.toList = true →
      (make_thread_name config_name pre).length ≤ 15) ∧
    make_thread_name "routing:test_default_x_ro" "RtS" = "RtS:x_ro" ∧
    make_thread_name "routing" "RtS" = "RtS:" ∧
    make_thread_name "" "pre" = "pre:parse err" ∧
    make_thread_name "routing:test_def_ult_x_ro" "RtS" = "RtS:test_def_ul" := by
  refine ⟨?_, ?_, by decide, by decide, by decide, by decide⟩
  · intro config_name pre h
    simp only [make_thread_name, h, Bool.false_eq_true, not_false_eq_true, if_true]
    rw [List.asString_eq]
    simp only [String.toList, String.data_append, List.append_assoc]
    refine congrArg (pre.data ++ ·) ?_
    decide
  · intro config_name pre h
    simp only [make_thread_name, h, not_true_eq_false, if_false]
    rcases hA : afterFirstChars kDefaultChars config_name.toList with _ | rest <;>
      simp only [hA] <;>
      rw [List.length_asString] <;>
      simp [List.length_take]

/-- C4 witness: both general clauses at concrete inputs. -/
theorem claim_C4_witness :
    make_thread_name " routing" "pre" = "pre" ++ ":parse err" ∧
    (make_thread_name "routing:test_def_ult_ro" "RtS").length ≤ 15 :=
  ⟨claim_C4_make_thread_name.1 " routing" "pre" (by decide),
   claim_C4_make_thread_name.2.1 "routing:test_def_ult_ro" "RtS" (by decide)⟩

/-- C5: set_destinations_from_uri rejects every non-metadata-cache scheme
with the exact quoted message, rejects a metadata-cache URI without a
role query parameter with the exact quoted message, and accepts
metadata-cache://test/default?role=PRIMARY. -/
theorem claim_C5_set_destinations_from_uri :
    (∀ u : URI, u.scheme ≠ "metadata-cache" →
      set_destinations_from_uri u =
        .error ("Invalid URI scheme; expecting: 'metadata-cache' is: '" ++ u.scheme ++ "'")) ∧
    (∀ u : URI, u.scheme = "metadata-cache" → queryLookup u.query "role" = none →
      set_destinations_from_uri u =
        .error "Missing 'role' in routing destination specification") ∧
    set_destinations_from_uri ⟨"metadata-cache", "test", ["default"], [("role", "PRIMARY")]⟩
      = .ok () := by
  refine ⟨?_, ?_, rfl⟩
  · intro u h
    simp [set_destinations_from_uri, h]
  · intro u hs hq
    simp [set_destinations_from_uri, hs, hq]

/-- C5 witness: the scheme clause at the invalid-scheme URI of the tests
and the missing-role clause at metadata-cache://test/default. -/
theorem claim_C5_witness :
    set_destinations_from_uri ⟨"invalid-scheme", "test", ["default"], [("role", "SECONDARY")]⟩
      = .error "Invalid URI scheme; expecting: 'metadata-cache' is: 'invalid-scheme'" ∧
    set_destinations_from_uri ⟨"metadata-cache", "test", ["default"], []⟩
      = .error "Missing 'role' in routing destination specification" :=
  ⟨claim_C5_set_destinations_from_uri.1
      ⟨"invalid-scheme", "test", ["default"], [("role", "SECONDARY")]⟩ (by decide),
   claim_C5_set_destinations_from_uri.2.1
      ⟨"metadata-cache", "test", ["default"], []⟩ rfl rfl⟩

/-- C6: set_destinations_from_csv fails on an empty list and on an
unparsable element such as "127.0.0.1.2:2222" for either protocol and
any bind address; a classic route bound on 127.0.0.1:3306 rejects
"127.0.0.1" (default port 3306 self-loops) and "127.0.0.1:3306" but
accepts "127.0.0.1:33060"; symmetrically for the extended protocol bound
on 127.0.0.1:33060; a well-formed two-element list is accepted. -/
theorem claim_C6_set_destinations_from_csv :
    (∀ (proto : ProtocolType) (bind : TCPAddress),
      (set_destinations_from_csv "" proto bind).isOk = false) ∧
    (∀ (proto : ProtocolType) (bind : TCPAddress),
      (set_destinations_from_csv "127.0.0.1.2:2222" proto bind).isOk = false) ∧
    (set_destinations_from_csv "127.0.0.1" .kClassicProtocol ⟨"127.0.0.1", 3306⟩).isOk
      = false ∧
    (set_destinations_from_csv "127.0.0.1:3306" .kClassicProtocol ⟨"127.0.0.1", 3306⟩).isOk
      = false ∧
    (set_destinations_from_csv "127.0.0.1:33060" .kClassicProtocol ⟨"127.0.0.1", 3306⟩).isOk
      = true ∧
    (set_destinations_from_csv "127.0.0.1" .kXProtocol ⟨"127.0.0.1", 33060⟩).isOk
      = false ∧
    (set_destinations_from_csv "127.0.0.1:33060" .kXProtocol ⟨"127.0.0.1", 33060⟩).isOk
      = false ∧
    (set_destinations_from_csv "127.0.0.1:3306" .kXProtocol ⟨"127.0.0.1", 33060⟩).isOk
      = true ∧
    (set_destinations_from_csv "127.0.0.1:2002,127.0.0.1:2004" .kXProtocol
      ⟨"127.0.0.1", 7001⟩).isOk = true :=
  ⟨fun _ _ => rfl, fun _ _ => rfl, rfl, rfl, rfl, rfl, rfl, rfl, rfl⟩

/-- C7: in the serialized Route model, every admitted accept increments
the active-connection counter exactly once, every pair termination
decrements it exactly once, and a rejected accept leaves it; two admitted
clients yield 2, closing one yields 1, closing the other yields 0. -/
theorem claim_C7_active_connection_accounting :
    (∀ active : Nat, routeStep active (.accept true) = active + 1) ∧
    (∀ active : Nat, routeStep active (.accept false) = active) ∧
    (∀ active : Nat, routeStep active .pairDone = active - 1) ∧
    runRoute [.accept true, .accept true] = 2 ∧
    runRoute [.accept true, .accept true, .pairDone] = 1 ∧
    runRoute [.accept true, .accept true, .pairDone, .pairDone] = 0 :=
  ⟨fun _ => rfl, fun _ => rfl, fun _ => rfl, rfl, rfl, rfl⟩

/-- When every candidate fails, the candidate loop exhausts the list and
its timeout_expired flag is exactly the lastWaitTimeout fold. -/
lemma connectLoop_all_fail (cands : List CandidateBehavior) :
    ∀ (te : Bool) (er : Nat), cands.all (fun c => !candSucceeds c) = true →
      (connectLoop cands te er).1 = none ∧
      (connectLoop cands te er).2.1 = lastWaitTimeout cands te := by
  induction cands with
  | nil => exact fun te er _ => ⟨rfl, rfl⟩
  | cons c rest ih =>
    intro te er hall
    simp only [List.all_cons, Bool.and_eq_true, Bool.not_eq_true'] at hall
    obtain ⟨hc, hrest⟩ := hall
    cases c with
    | sockFail e =>
      simpa [connectLoop, lastWaitTimeout] using ih te e hrest
    | attempt fd cb =>
      cases cb with
      | connOk => simp [candSucceeds] at hc
      | connFail e w =>
        by_cases he : e = EINPROGRESS
        · subst he
          cases w with
          | pollTimeout =>
            simpa [connectLoop, connect_non_blocking_wait, lastWaitTimeout]
              using ih _ _ hrest
          | pollError e2 =>
            simpa [connectLoop, connect_non_blocking_wait, lastWaitTimeout]
              using ih _ _ hrest
          | notWritable =>
            simpa [connectLoop, connect_non_blocking_wait, lastWaitTimeout]
              using ih _ _ hrest
          | writable s =>
            cases s with
            | sockoptFail e2 =>
              simpa [connectLoop, connect_non_blocking_status, lastWaitTimeout]
                using ih te e2 hrest
            | soError code =>
              have hcode : ¬ code = 0 := by
                simp [candSucceeds] at hc
                exact hc
              simpa [connectLoop, connect_non_blocking_status, hcode,
                lastWaitTimeout] using ih te _ hrest
        · simpa [connectLoop, he, lastWaitTimeout] using ih te e hrest

/-- C1 counterexample: the claimed equivalence — all candidates failing,
get_mysql_socket returns -2 iff the final errno is ETIMEDOUT — is false:
with a first candidate timing out in the non-blocking wait and a second
candidate refused immediately, the procedure returns -2 while the final
errno is ECONNREFUSED (the timeout_expired flag is not cleared by the
later failure). -/
theorem claim_C1_counterexample :
    ¬ (∀ env : ConnectEnv, env.gaiOk = true →
        env.cands.all (fun c => !candSucceeds c) = true →
        ((get_mysql_socket env).1 = -2 ↔ (get_mysql_socket env).2 = ETIMEDOUT)) := by
  intro hclaim
  have hinst := hclaim
    ⟨true, 0,
     [.attempt 3 (.connFail EINPROGRESS .pollTimeout),
      .attempt 4 (.connFail ECONNREFUSED .pollTimeout)], none⟩
    rfl (by decide)
  rw [show get_mysql_socket
      ⟨true, 0,
       [.attempt 3 (.connFail EINPROGRESS .pollTimeout),
        .attempt 4 (.connFail ECONNREFUSED .pollTimeout)], none⟩
      = (-2, ECONNREFUSED) from by decide] at hinst
  exact absurd (hinst.mp rfl) (by decide)

/-- C1 (amended): when getaddrinfo succeeded and every candidate fails to
connect, get_mysql_socket returns -1 or -2, and returns -2 (Timeout)
exactly when the last candidate failure that took the non-blocking wait
path observed errno ETIMEDOUT — the timeout_expired flag, which later
failures on other paths do not reset; a loopback dial whose single
candidate is refused (SO_ERROR = ECONNREFUSED after the wait) returns -1
(Refused), distinguishable from -2 (the model does not measure elapsed
time). -/
theorem claim_C1_refused_vs_timeout :
    (∀ env : ConnectEnv, env.gaiOk = true →
      env.cands.all (fun c => !candSucceeds c) = true →
      ((get_mysql_socket env).1 = -2 ↔ lastWaitTimeout env.cands false = true) ∧
      ((get_mysql_socket env).1 = -2 ∨ (get_mysql_socket env).1 = -1)) ∧
    (∀ fd : Nat,
      (get_mysql_socket
        ⟨true, 0,
         [.attempt fd (.connFail EINPROGRESS (.writable (.soError ECONNREFUSED)))],
         none⟩).1 = -1) := by
  constructor
  · intro env hgai hall
    obtain ⟨hnone, hflag⟩ := connectLoop_all_fail env.cands false env.errno0 hall
    have hres : get_mysql_socket env
        = (if lastWaitTimeout env.cands false then -2 else -1,
           (connectLoop env.cands false env.errno0).2.2) := by
      rw [get_mysql_socket, hgai]
      rcases hL : connectLoop env.cands false env.errno0 with ⟨r, te, er⟩
      rw [hL] at hnone hflag
      simp at hnone hflag
      subst hnone
      simp [hflag]
    rw [hres]
    cases hT : lastWaitTimeout env.cands false <;> simp
  · intro fd
    rfl

/-- C1 witness: the amended equivalence applied to the concrete
counterexample environment (flag true, result -2) and the refused
loopback dial at descriptor 7. -/
theorem claim_C1_witness :
    ((get_mysql_socket
        ⟨true, 0,
         [.attempt 3 (.connFail EINPROGRESS .pollTimeout),
          .attempt 4 (.connFail ECONNREFUSED .pollTimeout)], none⟩).1 = -2 ↔
      lastWaitTimeout
        [.attempt 3 (.connFail EINPROGRESS .pollTimeout),
         .attempt 4 (.connFail ECONNREFUSED .pollTimeout)] false = true) ∧
    (get_mysql_socket
      ⟨true, 0,
       [.attempt 7 (.connFail EINPROGRESS (.writable (.soError ECONNREFUSED)))],
       none⟩).1 = -1 :=
  ⟨(claim_C1_refused_vs_timeout.1
      ⟨true, 0,
       [.attempt 3 (.connFail EINPROGRESS .pollTimeout),
        .attempt 4 (.connFail ECONNREFUSED .pollTimeout)], none⟩
      rfl (by decide)).1,
   claim_C1_refused_vs_timeout.2 7⟩
